import Mathlib

/-!
Shallow embedding of the Express/Prisma CRUD server in `src/index.js`
(repository Johann-48/3bimestre-node).  The repository also contains an
older, syntactically broken duplicate of the same file; `src/index.js` is
the server entry point and the authority for every handler modelled here.

JSON request-body fields are modelled by `JsValue`; JavaScript truthiness
and the `Number(...)` coercion are modelled by `JsValue.truthy` and
`JsValue.toNumber` (integer-literal strings only, which covers every input
the handlers are specified on; a non-numeric string coerces to `nan`).
The Prisma client is modelled by pure functions over an explicit database
state `DB`; client argument-validation errors (which carry no `code`
property in JavaScript) are errors with `code = none`, and the Prisma
error codes P2002 / P2025 / P2003 are errors with that `code`.
-/

namespace BimNode

/-- A JSON/JavaScript value as it can appear in a request-body field.
`undefined` stands for an absent field. -/
inductive JsValue : Type where
  | undefined : JsValue
  | null : JsValue
  | bool (b : Bool) : JsValue
  | num (n : Int) : JsValue
  | str (s : String) : JsValue
deriving Repr, DecidableEq

/-- JavaScript truthiness: `undefined`, `null`, `false`, `0` and `""` are
falsy, everything else is truthy. -/
def JsValue.truthy : JsValue → Bool
  | .undefined => false
  | .null => false
  | .bool b => b
  | .num n => n != 0
  | .str s => s != ""

/-- Result of the JavaScript `Number(...)` coercion: either an integer or
`NaN` (floats do not occur in the modelled inputs). -/
inductive JsNumber : Type where
  | nan : JsNumber
  | int (n : Int) : JsNumber
deriving Repr, DecidableEq

/-- The whitespace class of the regex metacharacter `\s` (also the
whitespace `Number(...)` trims): tab, line feed, vertical tab, form feed,
carriage return, space, no-break space, Ogham space mark, the en-quad …
ideographic-space block, the line and paragraph separators, the narrow
no-break space, the medium mathematical space and the byte-order mark. -/
def isJsSpace (c : Char) : Bool :=
  c = ' ' || c = '\t' || c = '\n' || c = '\r' || c = '\x0b' || c = '\x0c' ||
    c.toNat = 160 || c.toNat = 5760 ||
    (8192 ≤ c.toNat && c.toNat ≤ 8202) ||
    c.toNat = 8232 || c.toNat = 8233 || c.toNat = 8239 || c.toNat = 8287 ||
    c.toNat = 12288 || c.toNat = 65279

/-- Strip leading and trailing whitespace from a character list. -/
def jsTrim (cs : List Char) : List Char :=
  ((cs.dropWhile isJsSpace).reverse.dropWhile isJsSpace).reverse

/-- The value of a decimal digit character, if it is one. -/
def digitVal (c : Char) : Option Nat :=
  if 48 ≤ c.toNat && c.toNat ≤ 57 then some (c.toNat - 48) else none

/-- The value of a nonempty all-digit character run, `none` otherwise
(`none` on the empty list is supplied by the callers). -/
def digitsToNat (cs : List Char) : Option Nat :=
  cs.foldl
    (fun acc c =>
      match acc, digitVal c with
      | some n, some d => some (n * 10 + d)
      | _, _ => none)
    (some 0)

/-- Parse a trimmed character list the way `Number(...)` reads an integer
literal: empty is `0`, an optional sign followed by digits is that
integer, anything else is `NaN`.  (Fractional, exponent and radix forms
do not occur in the inputs the handlers are specified on.) -/
def parseJsNumber (cs : List Char) : JsNumber :=
  match cs with
  | [] => .int 0
  | '-' :: rest =>
    match rest, digitsToNat rest with
    | _ :: _, some n => .int (-(n : Int))
    | _, _ => .nan
  | '+' :: rest =>
    match rest, digitsToNat rest with
    | _ :: _, some n => .int (n : Int)
    | _, _ => .nan
  | _ =>
    match digitsToNat cs with
    | some n => .int (n : Int)
    | none => .nan

/-- `Number(s)` for a string: trim whitespace, then read an integer
literal; the empty/whitespace string is `0`, anything non-numeric is
`NaN`. -/
def strToNumber (s : String) : JsNumber :=
  parseJsNumber (jsTrim s.data)

/-- `Number(v)` for a JavaScript value. -/
def JsValue.toNumber : JsValue → JsNumber
  | .undefined => .nan
  | .null => .int 0
  | .bool b => .int (if b then 1 else 0)
  | .num n => .int n
  | .str s => strToNumber s

/-- `String(v)`: the coercion applied by `RegExp.test` to a non-string
argument. -/
def JsValue.toStr : JsValue → String
  | .undefined => "undefined"
  | .null => "null"
  | .bool b => if b then "true" else "false"
  | .num n => toString n
  | .str s => s

/-- The email check of POST /users: the anchored regex
`/^\S+@\S+\.\S+$/`.  A string matches iff it splits as
`A ++ "@" ++ B ++ "." ++ C` with `A`, `B`, `C` nonempty runs of
non-whitespace characters; equivalently, all characters are non-whitespace
and there are positions `i < j` with an `@` at `i`, a `.` at `j`, at least
one character before `i`, between `i` and `j`, and after `j`. -/
def emailTest (s : String) : Bool :=
  let cs := s.data
  cs.all (fun c => !isJsSpace c) &&
    (List.range cs.length).any (fun i =>
      (List.range cs.length).any (fun j =>
        decide (1 ≤ i) && decide (i + 2 ≤ j) && decide (j + 2 ≤ cs.length) &&
          cs.getD i ' ' == '@' && cs.getD j ' ' == '.'))

/-- A row of the `User` table.  `password` is stored as received (the code
does no hashing); timestamps are abstract instants ordered as integers. -/
structure User : Type where
  id : Int
  name : String
  email : String
  password : String
  createdAt : Int
  updatedAt : Int
deriving Repr, DecidableEq

/-- A row of the `Store` table; `userId` is the required foreign key to
its owning user. -/
structure Store : Type where
  id : Int
  name : String
  userId : Int
deriving Repr, DecidableEq

/-- A row of the `Product` table; `storeId` is the required foreign key to
its owning store. -/
structure Product : Type where
  id : Int
  name : String
  price : Int
  storeId : Int
  createdAt : Int
  updatedAt : Int
deriving Repr, DecidableEq

/-- The database state: the three tables plus the autoincrement counters
used when creating rows. -/
structure DB : Type where
  users : List User
  stores : List Store
  products : List Product
  nextUserId : Int
  nextStoreId : Int
  nextProductId : Int
deriving Repr, DecidableEq

/-- A database-layer error as inspected by the handlers: the Prisma error
`code` (absent, i.e. `none`, for client validation errors), the
`meta.target` field list of a P2002 error, and the error `message`. -/
structure PrismaError : Type where
  code : Option String
  metaTarget : Option (List String)
  message : String
deriving Repr, DecidableEq

/-- A Prisma client argument-validation error: no `code` property. -/
def validationError : PrismaError :=
  ⟨none, none, "PrismaClientValidationError"⟩

/-- The JSON error body `{ error, detail? }` sent on failures. -/
structure ErrBody : Type where
  error : String
  detail : Option String
deriving Repr, DecidableEq

/-- The body of a JSON response: a success payload, an error body, or the
empty body of `res.end()`. -/
inductive RouteBody (α : Type) : Type where
  | ok (a : α) : RouteBody α
  | err (e : ErrBody) : RouteBody α
  | empty : RouteBody α
deriving Repr, DecidableEq

/-- What a handler produces: an HTTP status, a response body, and the
database state after the request. -/
structure HandlerOut (α : Type) : Type where
  status : Nat
  body : RouteBody α
  db : DB
deriving Repr, DecidableEq

/-- The shared error mapper `errorHandler(error, res)` of `src/index.js`:
P2002 → 409 with the joined `meta.target` field names, P2025 → 404,
P2003 → 400 with a fixed detail, anything else → 500 with the error
message as detail only when `NODE_ENV === "development"`. -/
def errorHandler (e : PrismaError) (nodeEnv : String) : ErrBody × Nat :=
  if e.code = some "P2002" then
    (⟨"Conflito de dados únicos", (e.metaTarget.map (String.intercalate ", "))⟩, 409)
  else if e.code = some "P2025" then
    (⟨"Recurso não encontrado", none⟩, 404)
  else if e.code = some "P2003" then
    (⟨"Violação de restrição de chave estrangeira", some "O ID referenciado não existe"⟩, 400)
  else
    (⟨"Erro interno do servidor",
      if nodeEnv = "development" then some e.message else none⟩, 500)

/-- `prisma.user.create({ data: { name, email, password } })`.  The three
columns are strings; a non-string argument is a client validation error.
`email` is unique: a duplicate raises P2002 with `meta.target = ["email"]`.
Timestamps default to the current instant `now`. -/
def prismaUserCreate (db : DB) (name email password : JsValue) (now : Int) :
    Except PrismaError (User × DB) :=
  match name, email, password with
  | .str n, .str e, .str p =>
    if db.users.any (fun u => u.email == e) then
      .error ⟨some "P2002", some ["email"],
        "Unique constraint failed on the fields: (email)"⟩
    else
      let u : User := ⟨db.nextUserId, n, e, p, now, now⟩
      .ok (u, { db with users := db.users ++ [u], nextUserId := db.nextUserId + 1 })
  | _, _, _ => .error validationError

/-- The POST /users handler: 400 when any of name/email/password is falsy,
400 when the email fails `emailTest`, otherwise create; P2002 → 409, any
other create error → 500 with the error message as detail. -/
def postUsers (db : DB) (name email password : JsValue) (now : Int) :
    HandlerOut User :=
  if !name.truthy || !email.truthy || !password.truthy then
    ⟨400, .err ⟨"Campos obrigatórios ausentes (name, email, password)", none⟩, db⟩
  else if !emailTest email.toStr then
    ⟨400, .err ⟨"Email em formato inválido", none⟩, db⟩
  else
    match prismaUserCreate db name email password now with
    | .ok (u, db2) => ⟨201, .ok u, db2⟩
    | .error e =>
      if e.code = some "P2002" then
        ⟨409, .err ⟨"E-mail já cadastrado",
          some ((e.metaTarget.map (String.intercalate ", ")).getD e.message)⟩, db⟩
      else
        ⟨500, .err ⟨"Erro ao criar usuário", some e.message⟩, db⟩

/-- The GET /users handler: `findMany({ orderBy: { id: "asc" } })`, the
full rows (no field selection) sorted by ascending id, status 200.  The
`findMany` call itself cannot fail in this state model, so the
`errorHandler` catch branch of the handler is unreachable here. -/
def getUsers (db : DB) : HandlerOut (List User) :=
  ⟨200, .ok (db.users.insertionSort (fun a b => a.id ≤ b.id)), db⟩

/-- Modelled from the spec: the Prisma schema file (not among the
repository sources shown) declares `onDelete: Cascade` from User to Store
and from Store to Product, so `prisma.user.delete` removes the user, the
user's stores, and those stores' products; a missing record raises
P2025. -/
def prismaUserDelete (db : DB) (uid : Int) : Except PrismaError DB :=
  if db.users.any (fun u => u.id == uid) then
    .ok { db with
      users := db.users.filter (fun u => u.id != uid),
      stores := db.stores.filter (fun s => s.userId != uid),
      products := db.products.filter (fun p =>
        !(db.stores.any (fun s => s.userId == uid && s.id == p.storeId))) }
  else
    .error ⟨some "P2025", none, "Record to delete does not exist."⟩

/-- `prisma.user.findUnique({ where: { id } })`: `NaN` is a client
validation error, otherwise the row with that id, if any. -/
def prismaUserFindUnique (db : DB) (idNum : JsNumber) :
    Except PrismaError (Option User) :=
  match idNum with
  | .nan => .error validationError
  | .int i => .ok (db.users.find? (fun u => u.id == i))

/-- The DELETE /users/:id handler: `Number(req.params.id)`, look the user
up, 404 when absent, otherwise delete (cascading per the schema) and
answer 204 with an empty body; database errors go to `errorHandler`. -/
def deleteUsersId (db : DB) (idParam : String) (nodeEnv : String) :
    HandlerOut User :=
  match prismaUserFindUnique db (strToNumber idParam) with
  | .error e =>
    let (b, st) := errorHandler e nodeEnv
    ⟨st, .err b, db⟩
  | .ok none => ⟨404, .err ⟨"Usuário não encontrado", none⟩, db⟩
  | .ok (some u) =>
    match prismaUserDelete db u.id with
    | .ok db2 => ⟨204, .empty, db2⟩
    | .error e =>
      let (b, st) := errorHandler e nodeEnv
      ⟨st, .err b, db⟩

/-- The owning user as selected by GET /stores/:id:
`select: { id, name, email, createdAt, updatedAt }` — no password
field. -/
structure PublicUser : Type where
  id : Int
  name : String
  email : String
  createdAt : Int
  updatedAt : Int
deriving Repr, DecidableEq

/-- The field selection applied to the owning user. -/
def selectPublic (u : User) : PublicUser :=
  ⟨u.id, u.name, u.email, u.createdAt, u.updatedAt⟩

/-- The payload of GET /stores/:id: the store with its owning user
(restricted fields) and its products. -/
structure StoreView : Type where
  store : Store
  user : PublicUser
  products : List Product
deriving Repr, DecidableEq

/-- `prisma.store.findUnique({ where: { id }, include: { user: select…,
products: orderBy createdAt desc } })`: `NaN` id is a client validation
error; a found store comes with its owner (the foreign key is required,
so in a well-formed database the owner exists) and its products sorted by
descending creation time. -/
def prismaStoreFindView (db : DB) (idNum : JsNumber) :
    Except PrismaError (Option StoreView) :=
  match idNum with
  | .nan => .error validationError
  | .int i =>
    match db.stores.find? (fun s => s.id == i) with
    | none => .ok none
    | some s =>
      match db.users.find? (fun u => u.id == s.userId) with
      | none => .ok none
      | some u =>
        .ok (some ⟨s, selectPublic u,
          (db.products.filter (fun p => p.storeId == s.id)).insertionSort
            (fun a b => b.createdAt ≤ a.createdAt)⟩)

/-- The GET /stores/:id handler: 404 when the store is absent, otherwise
200 with the `StoreView`; database errors go to `errorHandler`. -/
def getStoresId (db : DB) (idParam : String) (nodeEnv : String) :
    HandlerOut StoreView :=
  match prismaStoreFindView db (strToNumber idParam) with
  | .error e =>
    let (b, st) := errorHandler e nodeEnv
    ⟨st, .err b, db⟩
  | .ok none => ⟨404, .err ⟨"Loja não encontrada", none⟩, db⟩
  | .ok (some v) => ⟨200, .ok v, db⟩

/-- `prisma.store.update({ where: { id }, data: { name, userId } })`.
Client argument validation comes first: a `NaN` id, a non-string non-
`undefined` name, or a `NaN` userId is a validation error; an `undefined`
field is left unchanged; a missing record raises P2025; a `userId` that
references no user raises P2003. -/
def prismaStoreUpdate (db : DB) (idNum : JsNumber) (name : JsValue)
    (userIdNum : Option JsNumber) : Except PrismaError (Store × DB) :=
  match idNum with
  | .nan => .error validationError
  | .int i =>
    match name, userIdNum with
    | .undefined, none => prismaStoreUpdateGo db i none none
    | .undefined, some .nan => .error validationError
    | .undefined, some (.int u) => prismaStoreUpdateGo db i none (some u)
    | .str n, none => prismaStoreUpdateGo db i (some n) none
    | .str _, some .nan => .error validationError
    | .str n, some (.int u) => prismaStoreUpdateGo db i (some n) (some u)
    | _, _ => .error validationError
where
  prismaStoreUpdateGo (db : DB) (i : Int) (nameOpt : Option String)
      (uidOpt : Option Int) : Except PrismaError (Store × DB) :=
    match db.stores.find? (fun s => s.id == i) with
    | none => .error ⟨some "P2025", none, "Record to update not found."⟩
    | some s =>
      match uidOpt with
      | some u =>
        if db.users.any (fun v => v.id == u) then
          let s2 : Store := ⟨s.id, nameOpt.getD s.name, u⟩
          .ok (s2, { db with
            stores := db.stores.map (fun t => if t.id == i then s2 else t) })
        else
          .error ⟨some "P2003", none,
            "Foreign key constraint failed on the field: (userId)"⟩
      | none =>
        let s2 : Store := ⟨s.id, nameOpt.getD s.name, s.userId⟩
        .ok (s2, { db with
          stores := db.stores.map (fun t => if t.id == i then s2 else t) })

/-- The PUT /stores/:id handler: `data: { name, userId: userId ?
Number(userId) : undefined }`; success → 200 with the updated store,
P2025 → 404, any other error → 400 with the raw error message. -/
def putStoresId (db : DB) (idParam : String) (name userId : JsValue) :
    HandlerOut Store :=
  match prismaStoreUpdate db (strToNumber idParam) name
      (if userId.truthy then some userId.toNumber else none) with
  | .ok (s, db2) => ⟨200, .ok s, db2⟩
  | .error e =>
    if e.code = some "P2025" then ⟨404, .err ⟨"Loja não encontrada", none⟩, db⟩
    else ⟨400, .err ⟨e.message, none⟩, db⟩

/-- `prisma.product.create({ data: { name, price, storeId, updatedAt } })`:
a non-string name or a `NaN` price/storeId is a client validation error, a
`storeId` referencing no store raises P2003; `createdAt` defaults to the
current instant and `updatedAt` is the instant the handler passed. -/
def prismaProductCreate (db : DB) (name : JsValue) (price storeId : JsNumber)
    (now : Int) : Except PrismaError (Product × DB) :=
  match name, price, storeId with
  | .str n, .int pr, .int sid =>
    if db.stores.any (fun s => s.id == sid) then
      let p : Product := ⟨db.nextProductId, n, pr, sid, now, now⟩
      .ok (p, { db with
        products := db.products ++ [p],
        nextProductId := db.nextProductId + 1 })
    else
      .error ⟨some "P2003", none,
        "Foreign key constraint failed on the field: (storeId)"⟩
  | _, _, _ => .error validationError

/-- The POST /products handler: `price: Number(price)`,
`storeId: Number(storeId)`, `updatedAt: new Date()`; success → 201 with
the created record, any error → 400 with the raw error message. -/
def postProducts (db : DB) (name price storeId : JsValue) (now : Int) :
    HandlerOut Product :=
  match prismaProductCreate db name price.toNumber storeId.toNumber now with
  | .ok (p, db2) => ⟨201, .ok p, db2⟩
  | .error e => ⟨400, .err ⟨e.message, none⟩, db⟩

/-- `prisma.product.update({ where: { id }, data: { name, price,
storeId } })`, with the same argument-validation, P2025 and P2003
behaviour as the store update. -/
def prismaProductUpdate (db : DB) (idNum : JsNumber) (name : JsValue)
    (priceNum storeIdNum : Option JsNumber) :
    Except PrismaError (Product × DB) :=
  match idNum with
  | .nan => .error validationError
  | .int i =>
    match name with
    | .undefined => prismaProductUpdateArgs db i none priceNum storeIdNum
    | .str n => prismaProductUpdateArgs db i (some n) priceNum storeIdNum
    | _ => .error validationError
where
  prismaProductUpdateArgs (db : DB) (i : Int) (nameOpt : Option String)
      (priceNum storeIdNum : Option JsNumber) :
      Except PrismaError (Product × DB) :=
    match priceNum, storeIdNum with
    | some .nan, _ => .error validationError
    | _, some .nan => .error validationError
    | none, none => prismaProductUpdateGo db i nameOpt none none
    | some (.int pr), none => prismaProductUpdateGo db i nameOpt (some pr) none
    | none, some (.int sid) => prismaProductUpdateGo db i nameOpt none (some sid)
    | some (.int pr), some (.int sid) =>
      prismaProductUpdateGo db i nameOpt (some pr) (some sid)
  prismaProductUpdateGo (db : DB) (i : Int) (nameOpt : Option String)
      (prOpt sidOpt : Option Int) : Except PrismaError (Product × DB) :=
    match db.products.find? (fun p => p.id == i) with
    | none => .error ⟨some "P2025", none, "Record to update not found."⟩
    | some p =>
      match sidOpt with
      | some sid =>
        if db.stores.any (fun s => s.id == sid) then
          let p2 : Product := ⟨p.id, nameOpt.getD p.name, prOpt.getD p.price,
            sid, p.createdAt, p.updatedAt⟩
          .ok (p2, { db with
            products := db.products.map (fun q => if q.id == i then p2 else q) })
        else
          .error ⟨some "P2003", none,
            "Foreign key constraint failed on the field: (storeId)"⟩
      | none =>
        let p2 : Product := ⟨p.id, nameOpt.getD p.name, prOpt.getD p.price,
          p.storeId, p.createdAt, p.updatedAt⟩
        .ok (p2, { db with
          products := db.products.map (fun q => if q.id == i then p2 else q) })

/-- The PUT /products/:id handler: `price: price ? Number(price) :
undefined`, `storeId: storeId ? Number(storeId) : undefined`; success →
200, P2025 → 404, any other error → 400 with the raw error message. -/
def putProductsId (db : DB) (idParam : String) (name price storeId : JsValue) :
    HandlerOut Product :=
  match prismaProductUpdate db (strToNumber idParam) name
      (if price.truthy then some price.toNumber else none)
      (if storeId.truthy then some storeId.toNumber else none) with
  | .ok (p, db2) => ⟨200, .ok p, db2⟩
  | .error e =>
    if e.code = some "P2025" then ⟨404, .err ⟨"Produto não encontrado", none⟩, db⟩
    else ⟨400, .err ⟨e.message, none⟩, db⟩

/-- `true` when `f` is injective on the list, i.e. no two rows share the
key `f` extracts. -/
def nodupBy {α : Type} (f : α → Int) : List α → Bool
  | [] => true
  | a :: as => as.all (fun b => f b != f a) && nodupBy f as

/-- Database well-formedness: distinct primary keys in each table and
every store owned by an existing user (the invariants the schema's
primary keys and required foreign keys enforce). -/
def DB.wf (db : DB) : Bool :=
  nodupBy User.id db.users && nodupBy Store.id db.stores &&
    nodupBy Product.id db.products &&
    db.stores.all (fun s => db.users.any (fun u => u.id == s.userId))

/-- A small concrete database (one user owning one store with one
product) used to exercise the handlers on closed inputs. -/
def sampleDB : DB :=
  ⟨[⟨1, "Ana", "a@a.com", "pw1", 0, 0⟩],
   [⟨1, "Loja", 1⟩],
   [⟨1, "Caneta", 10, 1, 3, 3⟩, ⟨2, "Lapis", 5, 1, 7, 7⟩],
   2, 2, 3⟩

instance : IsTotal Product (fun a b => b.createdAt ≤ a.createdAt) :=
  ⟨fun a b => le_total b.createdAt a.createdAt⟩

instance : IsTrans Product (fun a b => b.createdAt ≤ a.createdAt) :=
  ⟨fun _ _ _ h1 h2 => le_trans h2 h1⟩

theorem find?_key_eq_of_nodupBy {α : Type} (f : α → Int) (l : List α) (a : α)
    (k : Int) (hnd : nodupBy f l = true) (ha : a ∈ l) (hk : f a = k) :
    l.find? (fun b => f b == k) = some a := by
  induction l with
  | nil => cases ha
  | cons x xs ih =>
    have hnd2 := hnd
    simp only [nodupBy, Bool.and_eq_true, List.all_eq_true] at hnd2
    rcases List.mem_cons.mp ha with h | h
    · subst h
      exact List.find?_cons_of_pos _ (by simp [hk])
    · have hne : f x ≠ k := by
        intro hxk
        exact (bne_iff_ne.mp (hnd2.1 a h)) (hk.trans hxk.symm)
      rw [List.find?_cons_of_neg _ (by simp [hne])]
      exact ih hnd2.2 h

theorem find?_key_eq_none {α : Type} (f : α → Int) (l : List α) (k : Int)
    (h : ∀ a ∈ l, f a ≠ k) : l.find? (fun b => f b == k) = none :=
  List.find?_eq_none.mpr (fun a ha => by simp [h a ha])

theorem wf_users_nodup {db : DB} (h : db.wf = true) :
    nodupBy User.id db.users = true := by
  simp only [DB.wf, Bool.and_eq_true] at h; exact h.1.1.1

theorem wf_stores_nodup {db : DB} (h : db.wf = true) :
    nodupBy Store.id db.stores = true := by
  simp only [DB.wf, Bool.and_eq_true] at h; exact h.1.1.2

theorem wf_products_nodup {db : DB} (h : db.wf = true) :
    nodupBy Product.id db.products = true := by
  simp only [DB.wf, Bool.and_eq_true] at h; exact h.1.2

/-- C1: the shared error mapper sends P2002 to 409 carrying the joined
conflicting field names, P2025 to 404 with a generic not-found message,
P2003 to 400 with the referenced-id-does-not-exist detail, and everything
else to 500, where the 500 body carries the error detail only outside
production mode. -/
theorem errorHandler_code_mapping (e : PrismaError) (env : String) :
    (e.code = some "P2002" →
      (errorHandler e env).2 = 409 ∧
      ∀ fs, e.metaTarget = some fs →
        (errorHandler e env).1.detail = some (String.intercalate ", " fs)) ∧
    (e.code = some "P2025" →
      errorHandler e env = (⟨"Recurso não encontrado", none⟩, 404)) ∧
    (e.code = some "P2003" →
      (errorHandler e env).2 = 400 ∧
      (errorHandler e env).1.detail = some "O ID referenciado não existe") ∧
    (e.code ≠ some "P2002" → e.code ≠ some "P2025" → e.code ≠ some "P2003" →
      (errorHandler e env).2 = 500 ∧
      ((errorHandler e env).1.detail ≠ none → env ≠ "production")) := by
  refine ⟨?_, ?_, ?_, ?_⟩
  · intro h
    constructor
    · simp [errorHandler, h]
    · intro fs hfs
      simp [errorHandler, h, hfs]
  · intro h
    have h2 : e.code ≠ some "P2002" := by simp [h]
    simp [errorHandler, h, h2]
  · intro h
    have h2 : e.code ≠ some "P2002" := by simp [h]
    have h3 : e.code ≠ some "P2025" := by simp [h]
    simp [errorHandler, h, h2, h3]
  · intro h1 h2 h3
    constructor
    · simp [errorHandler, h1, h2, h3]
    · intro hd
      by_cases henv : env = "development"
      · subst henv; decide
      · exfalso
        apply hd
        simp [errorHandler, h1, h2, h3, henv]

/-- Witness for C1 at a concrete P2002 error and a concrete unclassified
error in production mode. -/
theorem errorHandler_code_mapping_witness :
    (errorHandler ⟨some "P2002", some ["email"], "m"⟩ "production").2 = 409 ∧
    (errorHandler ⟨none, none, "boom"⟩ "production").2 = 500 := by
  constructor
  · exact ((errorHandler_code_mapping ⟨some "P2002", some ["email"], "m"⟩
      "production").1 rfl).1
  · exact ((errorHandler_code_mapping ⟨none, none, "boom"⟩
      "production").2.2.2 (by decide) (by decide) (by decide)).1

theorem emailTest_ne_empty {e : String} (h : emailTest e = true) : e ≠ "" := by
  intro he
  subst he
  exact absurd h (by decide)

/-- C2: a POST /users request with a non-empty name, a non-empty password
and a validly formatted email that duplicates an existing user's email is
answered 409 with a descriptive error body, never 201, and creates no
record. -/
theorem postUsers_duplicate_email_409 (db : DB) (n e p : String) (now : Int)
    (hn : n ≠ "") (hp : p ≠ "") (hfmt : emailTest e = true)
    (hdup : ∃ u ∈ db.users, u.email = e) :
    (postUsers db (.str n) (.str e) (.str p) now).status = 409 ∧
    (postUsers db (.str n) (.str e) (.str p) now).status ≠ 201 ∧
    (postUsers db (.str n) (.str e) (.str p) now).body =
      .err ⟨"E-mail já cadastrado", some "email"⟩ ∧
    (postUsers db (.str n) (.str e) (.str p) now).db = db := by
  have he : e ≠ "" := emailTest_ne_empty hfmt
  have hany : (db.users.any (fun u => u.email == e)) = true :=
    List.any_eq_true.mpr (by
      obtain ⟨u, hu, hue⟩ := hdup
      exact ⟨u, hu, by simp [hue]⟩)
  simp only [postUsers, JsValue.truthy, JsValue.toStr, prismaUserCreate]
  simp [hn, hp, he, hfmt, hany, String.intercalate]
  rfl

/-- Witness for C2: duplicating the sample user's email is refused with
409. -/
theorem postUsers_duplicate_email_409_witness :
    (postUsers sampleDB (.str "Bia") (.str "a@a.com") (.str "q") 5).status = 409 := by
  exact (postUsers_duplicate_email_409 sampleDB "Bia" "a@a.com" "q" 5
    (by decide) (by decide) (by decide)
    ⟨⟨1, "Ana", "a@a.com", "pw1", 0, 0⟩, by decide, rfl⟩).1

/-- C3: a POST /users request missing any of name, email or password (the
field absent or the empty string) is answered 400 and the database is
unchanged — no user record is created. -/
theorem postUsers_missing_field_400 (db : DB) (name email password : JsValue)
    (now : Int)
    (h : name = .undefined ∨ name = .str "" ∨ email = .undefined ∨
      email = .str "" ∨ password = .undefined ∨ password = .str "") :
    (postUsers db name email password now).status = 400 ∧
    (postUsers db name email password now).db = db := by
  rcases h with h | h | h | h | h | h <;> subst h <;>
    simp [postUsers, JsValue.truthy]

/-- Witness for C3: omitting the password is refused with 400 and leaves
the database as it was. -/
theorem postUsers_missing_field_400_witness :
    (postUsers sampleDB (.str "Bia") (.str "b@b.com") .undefined 5).status = 400 ∧
    (postUsers sampleDB (.str "Bia") (.str "b@b.com") .undefined 5).db = sampleDB :=
  postUsers_missing_field_400 sampleDB (.str "Bia") (.str "b@b.com") .undefined 5
    (by simp)

/-- C8: with name and password present and non-empty, the email is
accepted exactly when it matches `/^\S+@\S+\.\S+$/` (embedded as
`emailTest`): a non-matching email is answered 400 with no record
created, and a matching one proceeds past validation to the create call,
answering 201 or (on a duplicate) 409. -/
theorem postUsers_email_validation (db : DB) (n e p : String) (now : Int)
    (hn : n ≠ "") (hp : p ≠ "") :
    (emailTest e = false →
      (postUsers db (.str n) (.str e) (.str p) now).status = 400 ∧
      (postUsers db (.str n) (.str e) (.str p) now).db = db) ∧
    (emailTest e = true →
      (postUsers db (.str n) (.str e) (.str p) now).status = 201 ∨
      (postUsers db (.str n) (.str e) (.str p) now).status = 409) := by
  constructor
  · intro hfmt
    by_cases he : e = ""
    · subst he; simp [postUsers, JsValue.truthy, hn, hp]
    · simp [postUsers, JsValue.truthy, JsValue.toStr, hn, hp, he, hfmt]
  · intro hfmt
    have he : e ≠ "" := emailTest_ne_empty hfmt
    by_cases hany : (db.users.any (fun u => u.email == e)) = true
    · right
      simp [postUsers, JsValue.truthy, JsValue.toStr, hn, hp, he, hfmt,
        prismaUserCreate, hany]
    · left
      have hno : ¬ ∃ x ∈ db.users, x.email = e := by
        rintro ⟨u, hu, hue⟩
        exact hany (List.any_eq_true.mpr ⟨u, hu, by simp [hue]⟩)
      simp [postUsers, JsValue.truthy, JsValue.toStr, hn, hp, he, hfmt,
        prismaUserCreate, hno]

/-- Witness for C8: an email without a dot in its domain is refused with
400; a well-formed fresh email is created with 201. -/
theorem postUsers_email_validation_witness :
    (postUsers sampleDB (.str "Bia") (.str "b@bcom") (.str "q") 5).status = 400 ∧
    ((postUsers sampleDB (.str "Bia") (.str "b@b.com") (.str "q") 5).status = 201 ∨
      (postUsers sampleDB (.str "Bia") (.str "b@b.com") (.str "q") 5).status = 409) := by
  constructor
  · exact ((postUsers_email_validation sampleDB "Bia" "b@bcom" "q" 5
      (by decide) (by decide)).1 (by decide)).1
  · exact (postUsers_email_validation sampleDB "Bia" "b@b.com" "q" 5
      (by decide) (by decide)).2 (by decide)

/-- C10: the record answered with 201 by POST /users carries the stored
password verbatim, and GET /users answers the full stored user rows —
no field selection is applied to user records on either endpoint. -/
theorem users_endpoints_expose_password (db : DB) :
    (∀ (n e p : String) (now : Int) (u : User),
      (postUsers db (.str n) (.str e) (.str p) now).status = 201 →
      (postUsers db (.str n) (.str e) (.str p) now).body = .ok u →
      u.password = p ∧
      u ∈ (postUsers db (.str n) (.str e) (.str p) now).db.users) ∧
    (∃ l, getUsers db = ⟨200, .ok l, db⟩ ∧ ∀ u, u ∈ l ↔ u ∈ db.users) := by
  constructor
  · intro n e p now u h201 hbody
    by_cases hv1 : (!(JsValue.str n).truthy || !(JsValue.str e).truthy ||
        !(JsValue.str p).truthy) = true
    · exfalso
      simp [postUsers, hv1] at h201
    · by_cases hm : emailTest (JsValue.str e).toStr = true
      · have hm2 : (!emailTest (JsValue.str e).toStr) ≠ true := by simp [hm]
        rcases hc : prismaUserCreate db (.str n) (.str e) (.str p) now with err | pr
        · exfalso
          unfold postUsers at h201
          rw [if_neg hv1, if_neg hm2, hc] at h201
          by_cases hcode : err.code = some "P2002" <;> simp [hcode] at h201
        · obtain ⟨u2, db2⟩ := pr
          have hps : postUsers db (.str n) (.str e) (.str p) now =
              ⟨201, .ok u2, db2⟩ := by
            unfold postUsers
            rw [if_neg hv1, if_neg hm2, hc]
          rw [hps] at hbody ⊢
          simp only [RouteBody.ok.injEq] at hbody
          subst hbody
          by_cases hdup : (db.users.any fun v => v.email == e) = true
          · exfalso
            simp only [prismaUserCreate] at hc
            rw [if_pos hdup] at hc
            exact absurd hc (by simp)
          · simp only [prismaUserCreate] at hc
            rw [if_neg hdup] at hc
            simp only [Except.ok.injEq, Prod.mk.injEq] at hc
            obtain ⟨hu2, hdb2⟩ := hc
            subst hu2
            subst hdb2
            exact ⟨rfl, by simp⟩
      · exfalso
        unfold postUsers at h201
        have hm2 : (!emailTest (JsValue.str e).toStr) ≠ false := by simp [hm]
        rw [if_neg hv1, if_pos (Bool.ne_false_iff.mp hm2)] at h201
        simp at h201
  · exact ⟨_, rfl, fun u => List.mem_insertionSort _⟩

/-- Witness for C10: creating a fresh user answers 201 with the plaintext
password in the body, and the sample user list comes back with its stored
password. -/
theorem users_endpoints_expose_password_witness :
    ((postUsers sampleDB (.str "Bia") (.str "b@b.com") (.str "secret") 5).status = 201 →
      (postUsers sampleDB (.str "Bia") (.str "b@b.com") (.str "secret") 5).body =
        .ok ⟨2, "Bia", "b@b.com", "secret", 5, 5⟩ →
      (⟨2, "Bia", "b@b.com", "secret", 5, 5⟩ : User).password = "secret" ∧
      (⟨2, "Bia", "b@b.com", "secret", 5, 5⟩ : User) ∈
        (postUsers sampleDB (.str "Bia") (.str "b@b.com") (.str "secret") 5).db.users) ∧
    (∃ l, getUsers sampleDB = ⟨200, .ok l, sampleDB⟩ ∧
      ∀ u, u ∈ l ↔ u ∈ sampleDB.users) :=
  ⟨(users_endpoints_expose_password sampleDB).1 "Bia" "b@b.com" "secret" 5
    ⟨2, "Bia", "b@b.com", "secret", 5, 5⟩,
   (users_endpoints_expose_password sampleDB).2⟩

theorem prismaStoreUpdate_name_only (db : DB) (s : Store) (n : String)
    (hwf : db.wf = true) (hs : s ∈ db.stores) :
    prismaStoreUpdate db (.int s.id) (.str n) none =
      .ok (⟨s.id, n, s.userId⟩,
        { db with
          stores :=
            db.stores.map (fun t => if t.id == s.id then ⟨s.id, n, s.userId⟩ else t) }) := by
  have hfind := find?_key_eq_of_nodupBy Store.id db.stores s s.id
    (wf_stores_nodup hwf) hs rfl
  simp [prismaStoreUpdate, prismaStoreUpdate.prismaStoreUpdateGo, hfind]

theorem prismaStoreUpdate_noop (db : DB) (s : Store)
    (hwf : db.wf = true) (hs : s ∈ db.stores) :
    prismaStoreUpdate db (.int s.id) .undefined none =
      .ok (s,
        { db with
          stores :=
            db.stores.map (fun t => if t.id == s.id then s else t) }) := by
  have hfind := find?_key_eq_of_nodupBy Store.id db.stores s s.id
    (wf_stores_nodup hwf) hs rfl
  simp [prismaStoreUpdate, prismaStoreUpdate.prismaStoreUpdateGo, hfind]

theorem prismaStoreUpdate_absent (db : DB) (i : Int) (n : String)
    (hnone : ∀ t ∈ db.stores, t.id ≠ i) :
    prismaStoreUpdate db (.int i) (.str n) none =
      .error ⟨some "P2025", none, "Record to update not found."⟩ := by
  have hfind := find?_key_eq_none Store.id db.stores i hnone
  simp [prismaStoreUpdate, prismaStoreUpdate.prismaStoreUpdateGo, hfind]

/-- C4: PUT /stores/:id on an existing store preserves the fields the
body does not supply — supplying only `name` answers 200 with the store's
`userId` unchanged and stores that record, supplying neither field leaves
the store as it was — an id with no store answers 404, and any failure
other than record-not-found answers 400 carrying the raw error
message. -/
theorem putStoresId_partial_update (db : DB) (idp : String) :
    (∀ s n, db.wf = true → s ∈ db.stores → strToNumber idp = JsNumber.int s.id →
      (putStoresId db idp (.str n) .undefined).status = 200 ∧
      (putStoresId db idp (.str n) .undefined).body = .ok ⟨s.id, n, s.userId⟩ ∧
      (⟨s.id, n, s.userId⟩ : Store) ∈ (putStoresId db idp (.str n) .undefined).db.stores) ∧
    (∀ s, db.wf = true → s ∈ db.stores → strToNumber idp = JsNumber.int s.id →
      (putStoresId db idp .undefined .undefined).status = 200 ∧
      (putStoresId db idp .undefined .undefined).body = .ok s) ∧
    (∀ i n, strToNumber idp = JsNumber.int i → (∀ t ∈ db.stores, t.id ≠ i) →
      putStoresId db idp (.str n) .undefined =
        ⟨404, .err ⟨"Loja não encontrada", none⟩, db⟩) ∧
    (∀ name userId err,
      prismaStoreUpdate db (strToNumber idp) name
        (if userId.truthy then some userId.toNumber else none) = .error err →
      err.code ≠ some "P2025" →
      putStoresId db idp name userId = ⟨400, .err ⟨err.message, none⟩, db⟩) := by
  refine ⟨?_, ?_, ?_, ?_⟩
  · intro s n hwf hs hid
    have hupd := prismaStoreUpdate_name_only db s n hwf hs
    refine ⟨?_, ?_, ?_⟩
    · simp [putStoresId, JsValue.truthy, hid, hupd]
    · simp [putStoresId, JsValue.truthy, hid, hupd]
    · simp only [putStoresId, JsValue.truthy, Bool.false_eq_true, if_false, hid, hupd]
      have := List.mem_map_of_mem
        (fun t => if t.id == s.id then (⟨s.id, n, s.userId⟩ : Store) else t) hs
      simpa using this
  · intro s hwf hs hid
    have hupd := prismaStoreUpdate_noop db s hwf hs
    constructor
    · simp [putStoresId, JsValue.truthy, hid, hupd]
    · simp [putStoresId, JsValue.truthy, hid, hupd]
  · intro i n hid hnone
    have hupd := prismaStoreUpdate_absent db i n hnone
    simp [putStoresId, JsValue.truthy, hid, hupd]
  · intro name userId err hupd hcode
    simp only [putStoresId, hupd]
    rw [if_neg hcode]

/-- Witness for C4: renaming the sample store keeps its owner, a missing
id answers 404, and a foreign-key failure (moving the store to a missing
user) answers 400 with the raw error message. -/
theorem putStoresId_partial_update_witness :
    ((putStoresId sampleDB "1" (.str "Nova") .undefined).status = 200 ∧
      (putStoresId sampleDB "1" (.str "Nova") .undefined).body = .ok ⟨1, "Nova", 1⟩ ∧
      (⟨1, "Nova", 1⟩ : Store) ∈ (putStoresId sampleDB "1" (.str "Nova") .undefined).db.stores) ∧
    putStoresId sampleDB "9" (.str "Nova") .undefined =
      ⟨404, .err ⟨"Loja não encontrada", none⟩, sampleDB⟩ ∧
    putStoresId sampleDB "1" .undefined (.num 7) =
      ⟨400, .err ⟨"Foreign key constraint failed on the field: (userId)", none⟩, sampleDB⟩ := by
  refine ⟨?_, ?_, ?_⟩
  · exact (putStoresId_partial_update sampleDB "1").1 ⟨1, "Loja", 1⟩ "Nova"
      (by decide) (by decide) (by decide)
  · exact (putStoresId_partial_update sampleDB "9").2.2.1 9 "Nova" (by decide)
      (by decide)
  · exact (putStoresId_partial_update sampleDB "1").2.2.2 .undefined (.num 7)
      ⟨some "P2003", none, "Foreign key constraint failed on the field: (userId)"⟩
      (by rfl) (by decide)

/-- C5: GET /stores/:id on an existing store answers 200 with the store,
its owning user reduced to the selected field subset (`PublicUser`, which
has no password field) and its products in descending creation-time
order; on an absent id the handler itself answers 404 (the embedding is a
total function, so no exception passes the handler), leaving the database
untouched in both cases. -/
theorem getStoresId_read (db : DB) (idp : String) (env : String) :
    (∀ s u, db.wf = true → s ∈ db.stores → u ∈ db.users → u.id = s.userId →
      strToNumber idp = JsNumber.int s.id →
      ∃ v, getStoresId db idp env = ⟨200, .ok v, db⟩ ∧
        v.store = s ∧ v.user = selectPublic u ∧
        v.products.Pairwise (fun a b => b.createdAt ≤ a.createdAt) ∧
        (∀ p, p ∈ v.products ↔ p ∈ db.products ∧ p.storeId = s.id)) ∧
    (∀ i, strToNumber idp = JsNumber.int i → (∀ t ∈ db.stores, t.id ≠ i) →
      getStoresId db idp env = ⟨404, .err ⟨"Loja não encontrada", none⟩, db⟩) := by
  constructor
  · intro s u hwf hs hu huid hid
    have hfs := find?_key_eq_of_nodupBy Store.id db.stores s s.id
      (wf_stores_nodup hwf) hs rfl
    have hfu := find?_key_eq_of_nodupBy User.id db.users u s.userId
      (wf_users_nodup hwf) hu huid
    refine ⟨⟨s, selectPublic u,
      (db.products.filter (fun p => p.storeId == s.id)).insertionSort
        (fun a b => b.createdAt ≤ a.createdAt)⟩, ?_, rfl, rfl, ?_, ?_⟩
    · simp [getStoresId, hid, prismaStoreFindView, hfs, hfu]
    · exact List.sorted_insertionSort
        (fun a b : Product => b.createdAt ≤ a.createdAt)
        (db.products.filter (fun p => p.storeId == s.id))
    · intro p
      rw [List.mem_insertionSort, List.mem_filter]
      simp
  · intro i hid hnone
    have hfs := find?_key_eq_none Store.id db.stores i hnone
    simp [getStoresId, hid, prismaStoreFindView, hfs]

/-- Witness for C5: reading the sample store answers 200 with the
passwordless owner view and the products newest-first; reading id 9
answers 404. -/
theorem getStoresId_read_witness :
    (∃ v, getStoresId sampleDB "1" "test" = ⟨200, .ok v, sampleDB⟩ ∧
      v.store = ⟨1, "Loja", 1⟩ ∧ v.user = selectPublic ⟨1, "Ana", "a@a.com", "pw1", 0, 0⟩ ∧
      v.products.Pairwise (fun a b => b.createdAt ≤ a.createdAt) ∧
      (∀ p, p ∈ v.products ↔ p ∈ sampleDB.products ∧ p.storeId = 1)) ∧
    getStoresId sampleDB "9" "test" = ⟨404, .err ⟨"Loja não encontrada", none⟩, sampleDB⟩ := by
  constructor
  · exact (getStoresId_read sampleDB "1" "test").1 ⟨1, "Loja", 1⟩
      ⟨1, "Ana", "a@a.com", "pw1", 0, 0⟩ (by decide) (by decide) (by decide) rfl (by decide)
  · exact (getStoresId_read sampleDB "9" "test").2 9 (by decide) (by decide)

theorem prismaProductUpdate_noop (db : DB) (p : Product)
    (hwf : db.wf = true) (hp : p ∈ db.products) :
    prismaProductUpdate db (.int p.id) .undefined none none =
      .ok (p,
        { db with
          products :=
            db.products.map (fun q => if q.id == p.id then p else q) }) := by
  have hfind := find?_key_eq_of_nodupBy Product.id db.products p p.id
    (wf_products_nodup hwf) hp rfl
  simp [prismaProductUpdate, prismaProductUpdate.prismaProductUpdateArgs,
    prismaProductUpdate.prismaProductUpdateGo, hfind]

/-- C9: the guard `x ? Number(x) : undefined` maps a supplied falsy value
to `undefined`: in PUT /stores/:id a falsy `userId` (such as 0), and in
PUT /products/:id a falsy `price` or `storeId`, behave exactly as if the
field were absent, so the stored field keeps its old value instead of
being set. -/
theorem falsy_update_field_ignored (db : DB) (idp : String) :
    (∀ s v, db.wf = true → s ∈ db.stores → strToNumber idp = JsNumber.int s.id →
      v.truthy = false →
      putStoresId db idp .undefined v = putStoresId db idp .undefined .undefined ∧
      (putStoresId db idp .undefined v).status = 200 ∧
      (putStoresId db idp .undefined v).body = .ok s) ∧
    (∀ p v w, db.wf = true → p ∈ db.products → strToNumber idp = JsNumber.int p.id →
      v.truthy = false → w.truthy = false →
      putProductsId db idp .undefined v w =
        putProductsId db idp .undefined .undefined .undefined ∧
      (putProductsId db idp .undefined v w).status = 200 ∧
      (putProductsId db idp .undefined v w).body = .ok p) := by
  constructor
  · intro s v hwf hs hid hv
    have hupd := prismaStoreUpdate_noop db s hwf hs
    refine ⟨?_, ?_, ?_⟩
    · simp only [putStoresId, hv]
      rfl
    · simp [putStoresId, hv, hid, hupd]
    · simp [putStoresId, hv, hid, hupd]
  · intro p v w hwf hp hid hv hw
    have hupd := prismaProductUpdate_noop db p hwf hp
    refine ⟨?_, ?_, ?_⟩
    · simp only [putProductsId, hv, hw]
      rfl
    · simp [putProductsId, hv, hw, hid, hupd]
    · simp [putProductsId, hv, hw, hid, hupd]

/-- Witness for C9: `userId: 0` on the sample store and `price: 0`,
`storeId: 0` on the sample product both leave the row as it was, with
status 200. -/
theorem falsy_update_field_ignored_witness :
    ((putStoresId sampleDB "1" .undefined (.num 0)).status = 200 ∧
      (putStoresId sampleDB "1" .undefined (.num 0)).body = .ok ⟨1, "Loja", 1⟩) ∧
    ((putProductsId sampleDB "1" .undefined (.num 0) (.num 0)).status = 200 ∧
      (putProductsId sampleDB "1" .undefined (.num 0) (.num 0)).body =
        .ok ⟨1, "Caneta", 10, 1, 3, 3⟩) := by
  constructor
  · exact ((falsy_update_field_ignored sampleDB "1").1 ⟨1, "Loja", 1⟩ (.num 0)
      (by decide) (by decide) (by decide) (by decide)).2
  · exact ((falsy_update_field_ignored sampleDB "1").2 ⟨1, "Caneta", 10, 1, 3, 3⟩
      (.num 0) (.num 0) (by decide) (by decide) (by decide) (by decide) (by decide)).2

/-- C6: POST /products needs name, price and storeId — omitting any of
them makes the create call fail and the handler answer 400 with nothing
stored — and every request coerces price and storeId with `Number(...)`
and stamps `updatedAt`; a successful create answers 201 with the created
record appended to the table, and every failure answers 400. -/
theorem postProducts_create (db : DB) (name price storeId : JsValue) (now : Int) :
    ((name = .undefined ∨ price = .undefined ∨ storeId = .undefined) →
      (postProducts db name price storeId now).status = 400 ∧
      (postProducts db name price storeId now).db = db) ∧
    (∀ p db2,
      prismaProductCreate db name price.toNumber storeId.toNumber now = .ok (p, db2) →
      postProducts db name price storeId now = ⟨201, .ok p, db2⟩ ∧
      p.updatedAt = now ∧ price.toNumber = .int p.price ∧
      storeId.toNumber = .int p.storeId ∧ db2.products = db.products ++ [p]) ∧
    (∀ err,
      prismaProductCreate db name price.toNumber storeId.toNumber now = .error err →
      (postProducts db name price storeId now).status = 400 ∧
      (postProducts db name price storeId now).db = db) := by
  refine ⟨?_, ?_, ?_⟩
  · intro h
    rcases h with h | h | h <;> subst h
    · cases hq : price.toNumber <;> cases hr : storeId.toNumber <;>
        simp [postProducts, prismaProductCreate, hq, hr]
    · cases name <;> cases hr : storeId.toNumber <;>
        simp [postProducts, prismaProductCreate, JsValue.toNumber, hr]
    · cases name <;> cases hq : price.toNumber <;>
        simp [postProducts, prismaProductCreate, JsValue.toNumber, hq]
  · intro p db2 hc
    refine ⟨by simp [postProducts, hc], ?_⟩
    cases name with
    | str n =>
      cases hq : price.toNumber with
      | nan => rw [hq] at hc; simp [prismaProductCreate] at hc
      | int pr =>
        cases hr : storeId.toNumber with
        | nan => rw [hq, hr] at hc; simp [prismaProductCreate] at hc
        | int sid =>
          rw [hq, hr] at hc
          simp only [prismaProductCreate] at hc
          split at hc
          · simp only [Except.ok.injEq, Prod.mk.injEq] at hc
            obtain ⟨hp, hdb⟩ := hc
            subst hp
            subst hdb
            exact ⟨rfl, rfl, rfl, rfl⟩
          · exact absurd hc (by simp)
    | undefined => simp [prismaProductCreate] at hc
    | null => simp [prismaProductCreate] at hc
    | bool b => simp [prismaProductCreate] at hc
    | num m => simp [prismaProductCreate] at hc
  · intro err hc
    simp [postProducts, hc]

/-- Witness for C6: a missing price answers 400; creating with string
inputs coerces them, stamps `updatedAt`, and answers 201 with the stored
record. -/
theorem postProducts_create_witness :
    ((postProducts sampleDB (.str "Caderno") .undefined (.num 1) 9).status = 400 ∧
      (postProducts sampleDB (.str "Caderno") .undefined (.num 1) 9).db = sampleDB) ∧
    (postProducts sampleDB (.str "Caderno") (.str "25") (.str "1") 9 =
      ⟨201, .ok ⟨3, "Caderno", 25, 1, 9, 9⟩,
        { sampleDB with
          products := sampleDB.products ++ [⟨3, "Caderno", 25, 1, 9, 9⟩],
          nextProductId := 4 }⟩ ∧
      (⟨3, "Caderno", 25, 1, 9, 9⟩ : Product).updatedAt = 9) := by
  constructor
  · exact (postProducts_create sampleDB (.str "Caderno") .undefined (.num 1) 9).1
      (by simp)
  · have h := (postProducts_create sampleDB (.str "Caderno") (.str "25") (.str "1") 9).2.1
      ⟨3, "Caderno", 25, 1, 9, 9⟩
      { sampleDB with
        products := sampleDB.products ++ [⟨3, "Caderno", 25, 1, 9, 9⟩],
        nextProductId := 4 }
      (by rfl)
    exact ⟨h.1, h.2.1⟩

/-- C7: DELETE /users/:id with a numeric id answers 404 and deletes
nothing when no user has that id; otherwise it deletes the user — the
deletion cascading to the user's stores and transitively to their
products, so a lookup of that user's stores afterwards returns none —
and answers 204 with an empty body. -/
theorem deleteUsersId_cascade (db : DB) (idp : String) (env : String) :
    (∀ i, strToNumber idp = JsNumber.int i → (∀ u ∈ db.users, u.id ≠ i) →
      deleteUsersId db idp env = ⟨404, .err ⟨"Usuário não encontrado", none⟩, db⟩) ∧
    (∀ u, db.wf = true → u ∈ db.users → strToNumber idp = JsNumber.int u.id →
      (deleteUsersId db idp env).status = 204 ∧
      (deleteUsersId db idp env).body = .empty ∧
      (∀ v ∈ (deleteUsersId db idp env).db.users, v.id ≠ u.id) ∧
      (deleteUsersId db idp env).db.stores.filter (fun s => s.userId == u.id) = [] ∧
      (∀ q ∈ (deleteUsersId db idp env).db.products, ∀ s ∈ db.stores,
        s.userId = u.id → q.storeId ≠ s.id)) := by
  constructor
  · intro i hid hnone
    have hfind := find?_key_eq_none User.id db.users i hnone
    simp [deleteUsersId, hid, prismaUserFindUnique, hfind]
  · intro u hwf hu hid
    have hfind := find?_key_eq_of_nodupBy User.id db.users u u.id
      (wf_users_nodup hwf) hu rfl
    have hany : (db.users.any fun v => v.id == u.id) = true :=
      List.any_eq_true.mpr ⟨u, hu, by simp⟩
    have hres : deleteUsersId db idp env =
        ⟨204, .empty,
          { db with
            users := db.users.filter (fun v => v.id != u.id),
            stores := db.stores.filter (fun s => s.userId != u.id),
            products := db.products.filter (fun q =>
              !(db.stores.any (fun s => s.userId == u.id && s.id == q.storeId))) }⟩ := by
      simp [deleteUsersId, hid, prismaUserFindUnique, hfind, prismaUserDelete, hany]
    rw [hres]
    refine ⟨rfl, rfl, ?_, ?_, ?_⟩
    · intro v hv
      exact bne_iff_ne.mp (List.mem_filter.mp hv).2
    · refine List.filter_eq_nil_iff.mpr ?_
      intro s hsmem
      have hne := bne_iff_ne.mp (List.mem_filter.mp hsmem).2
      simp [hne]
    · intro q hq s hs hsu hqs
      have hpred := (List.mem_filter.mp hq).2
      rw [Bool.not_eq_true'] at hpred
      have : (db.stores.any fun t => t.userId == u.id && t.id == q.storeId) = true :=
        List.any_eq_true.mpr ⟨s, hs, by simp [hsu, hqs]⟩
      rw [this] at hpred
      cases hpred

/-- Witness for C7: deleting a missing id answers 404 and deleting the
sample user answers 204 and leaves no store of that user behind. -/
theorem deleteUsersId_cascade_witness :
    deleteUsersId sampleDB "9" "test" =
      ⟨404, .err ⟨"Usuário não encontrado", none⟩, sampleDB⟩ ∧
    ((deleteUsersId sampleDB "1" "test").status = 204 ∧
      (deleteUsersId sampleDB "1" "test").body = .empty ∧
      (deleteUsersId sampleDB "1" "test").db.stores.filter
        (fun s => s.userId == (1 : Int)) = []) := by
  constructor
  · exact (deleteUsersId_cascade sampleDB "9" "test").1 9 (by decide) (by decide)
  · have h := (deleteUsersId_cascade sampleDB "1" "test").2
      ⟨1, "Ana", "a@a.com", "pw1", 0, 0⟩ (by decide) (by decide) (by decide)
    exact ⟨h.1, h.2.1, h.2.2.2.1⟩

end BimNode
